import Mathlib

/-!
Shallow embedding of the module-testing harness in `hacking/test-module.py`:
argument normalization (`boilerplate_module`, lines 82-103), module-style
classification and the line-offset warning (lines 105-121), the AnsiBallZ
explode protocol and module search (`ansiballz_setup`, lines 175-207), and the
module-output reporting stage of `runtest` (lines 145-164).

Python strings are modelled as Lean `String`, Python dicts as insertion-ordered
association lists with unique keys (`dictSet`/`dictGet`), JSON-compatible
values as the inductive `JValue`, and the filesystem / child processes /
external collaborators (the DataLoader, `modify_module`, the configuration
constants) as explicit oracle parameters or spec-modelled constants.
-/

namespace TestModule

/-- Model of Python `str.startswith`: character-list prefix test. -/
def startswith (s pre : String) : Bool :=
  pre.toList.isPrefixOf s.toList

/-- Model of Python `str.endswith`: character-list suffix test. -/
def endswith (s suf : String) : Bool :=
  suf.toList.isSuffixOf s.toList

/-- Substring occurrence on character lists, used to model the Python
`in` operator on strings. -/
def isInfixList (pat : List Char) : List Char → Bool
  | [] => pat.isEmpty
  | c :: cs => pat.isPrefixOf (c :: cs) || isInfixList pat cs

/-- Model of the Python expression `pat in s` for strings. -/
def py_in (pat s : String) : Bool :=
  isInfixList pat.toList s.toList

/-- Model of Python `s[n:]` (string slicing from index `n`). -/
def py_drop (s : String) (n : Nat) : String :=
  (s.toList.drop n).asString

/-- Whitespace characters stripped by Python `str.strip()` with no argument. -/
def isSpaceChar (c : Char) : Bool :=
  c = ' ' ∨ c = '\t' ∨ c = '\n' ∨ c = '\x0d' ∨ c = '\x0b' ∨ c = '\x0c'

/-- Model of Python `str.strip()`: drop whitespace from both ends. -/
def py_strip (s : String) : String :=
  (((s.toList.dropWhile isSpaceChar).reverse.dropWhile isSpaceChar).reverse).asString

/-- Helper for `splitlines`: split at newline characters, accumulating the
current (reversed) line. -/
def splitlinesAux : List Char → List Char → List String
  | [], acc => if acc.isEmpty then [] else [acc.reverse.asString]
  | c :: cs, acc =>
    if c = '\n' then acc.reverse.asString :: splitlinesAux cs []
    else splitlinesAux cs (c :: acc)

/-- Model of Python `str.splitlines()` restricted to `\n` separators (the only
line separator produced by the explode protocol): no trailing empty line when
the text ends in a newline, and the empty string yields no lines. -/
def splitlines (s : String) : List String :=
  splitlinesAux s.toList []

/-- Model of `os.path.basename`: the part of the path after the last slash. -/
def os_path_basename (p : String) : String :=
  ((p.toList.reverse.takeWhile (fun c => ¬ c = '/')).reverse).asString

/-- Model of the root part of `os.path.splitext`: split at the last dot,
except that a name whose characters before that dot are all dots (such as a
leading-dot file) is returned whole, as in CPython. -/
def os_path_splitext_root (name : String) : String :=
  let r := name.toList.reverse
  let ext := r.takeWhile (fun c => ¬ c = '.')
  match r.drop ext.length with
  | '.' :: restRev =>
    if restRev.any (fun c => ¬ c = '.') then restRev.reverse.asString else name
  | _ => name

/-- Model of `os.path.join` for two components: an absolute second component
wins; otherwise the components are joined with a single slash. -/
def os_path_join (a b : String) : String :=
  if startswith b "/" then b
  else if a = "" then b
  else if endswith a "/" then a ++ b
  else a ++ "/" ++ b

/-- Model of `os.path.expanduser` with the home directory made explicit: only
a leading `~` (alone or followed by a slash) is expanded. -/
def os_path_expanduser (home p : String) : String :=
  if p = "~" then home
  else if startswith p "~/" then home ++ py_drop p 1
  else p

/-- JSON-compatible values: the data model for module arguments and module
output (Python's `json` values, with numbers restricted to integers; floats
are outside this model). -/
inductive JValue where
  | null : JValue
  | bool : Bool → JValue
  | num : Int → JValue
  | str : String → JValue
  | arr : List JValue → JValue
  | obj : List (String × JValue) → JValue

/-- Python dict assignment `d[k] = v` on an insertion-ordered association
list with unique keys: replace the first binding of `k` in place, or append a
new binding at the end. -/
def dictSet : List (String × JValue) → String → JValue → List (String × JValue)
  | [], k, v => [(k, v)]
  | p :: d, k, v => if p.1 = k then (k, v) :: d else p :: dictSet d k v

/-- Python dict lookup `d[k]` (first binding wins, as in a dict, where keys
are unique). -/
def dictGet : List (String × JValue) → String → Option JValue
  | [], _ => none
  | p :: d, k => if p.1 = k then some p.2 else dictGet d k

/-- Lookup of the last binding of a key, which is the binding that survives a
sequence of dict updates when the list is replayed left to right. -/
def dictGetLast (d : List (String × JValue)) (k : String) : Option JValue :=
  dictGet d.reverse k

/-- First-some choice on options, used to state merge lemmas. -/
def optOr : Option JValue → Option JValue → Option JValue
  | some x, _ => some x
  | none, y => y

/-- Modelled from the spec: `ansible.utils.vars.combine_vars` (repository code
not under `src/`) with the default replace behaviour merges the second mapping
over the first, later values overwriting earlier ones for the same key. -/
def combine_vars (a b : List (String × JValue)) : List (String × JValue) :=
  b.foldl (fun d p => dictSet d p.1 p.2) a

/-- Helper for the quote-aware splitter: scan characters, tracking an open
quote character, and cut tokens at unquoted spaces. Quote characters are kept
in the token, as in the source splitter, and removed later by `unquote`. -/
def splitArgsAux : List Char → Option Char → List Char → List String
  | [], _, acc => if acc.isEmpty then [] else [acc.reverse.asString]
  | c :: cs, some q, acc =>
    if c = q then splitArgsAux cs none (c :: acc)
    else splitArgsAux cs (some q) (c :: acc)
  | c :: cs, none, acc =>
    if c = ' ' then
      if acc.isEmpty then splitArgsAux cs none []
      else acc.reverse.asString :: splitArgsAux cs none []
    else if c = Char.ofNat 34 ∨ c = Char.ofNat 39 then
      splitArgsAux cs (some c) (c :: acc)
    else splitArgsAux cs none (c :: acc)

/-- Modelled from the spec: the whitespace-separated, quote-aware token split
used by the argument parser (repository code not under `src/`). -/
def split_args (s : String) : List String :=
  splitArgsAux s.toList none []

/-- Split a token at its first `=`, returning the key and value character
lists, or nothing when the token has no `=`. -/
def splitFirstEq : List Char → Option (List Char × List Char)
  | [] => none
  | c :: cs =>
    if c = '=' then some ([], cs)
    else (splitFirstEq cs).map (fun p => (c :: p.1, p.2))

/-- Strip one pair of matching surrounding quotes from a value, if present. -/
def unquote (s : String) : String :=
  match s.toList with
  | [] => s
  | c :: rest =>
    if (c = Char.ofNat 34 ∨ c = Char.ofNat 39) ∧ rest ≠ [] ∧ rest.getLast? = some c
    then rest.dropLast.asString
    else s

/-- Modelled from the spec: `parse_kv` (repository code not under `src/`)
parses a raw argument string as whitespace-separated, quote-aware `key=value`
tokens into a mapping; a later occurrence of a key overwrites an earlier one
because the mapping is built by successive dict assignments. Tokens without an
`=` are ignored by this model. -/
def parse_kv (s : String) : List (String × JValue) :=
  (split_args s).foldl
    (fun d tok =>
      match splitFirstEq tok.toList with
      | some p => dictSet d p.1.asString (.str (unquote p.2.asString))
      | none => d)
    []

/-- Modelled from the spec: the configuration collaborator's SELinux
special-filesystem list (`C.DEFAULT_SELINUX_SPECIAL_FS`). -/
def DEFAULT_SELINUX_SPECIAL_FS : JValue :=
  .arr [.str "fuse", .str "nfs", .str "vboxsf", .str "ramfs", .str "9p", .str "vfat"]

/-- Modelled from the spec: the configuration collaborator's per-run local
temp directory path (`C.DEFAULT_LOCAL_TMP`). -/
def DEFAULT_LOCAL_TMP : String := "/root/.ansible/tmp/ansible-local-0000"

/-- Modelled from the spec: the configuration collaborator's keep-remote-files
flag (`C.DEFAULT_KEEP_REMOTE_FILES`). -/
def DEFAULT_KEEP_REMOTE_FILES : Bool := false

/-- Modelled from the spec: the engine version tag (`ansible.release.__version__`). -/
def ansible_version : String := "2.19.0"

/-- The four reserved argument keys injected by the harness before any
caller-supplied arguments are merged (lines 84-87 of the source). -/
def reserved_defaults : List (String × JValue) :=
  [("_ansible_selinux_special_fs", DEFAULT_SELINUX_SPECIAL_FS),
   ("_ansible_tmpdir", .str DEFAULT_LOCAL_TMP),
   ("_ansible_keep_remote_files", .bool DEFAULT_KEEP_REMOTE_FILES),
   ("_ansible_version", .str ansible_version)]

/-- The names of the four reserved keys. -/
def reserved_keys : List String :=
  ["_ansible_selinux_special_fs", "_ansible_tmpdir",
   "_ansible_keep_remote_files", "_ansible_version"]

/-- Argument normalization, lines 82-103 of `boilerplate_module`: starting
from the fixed facts, an `@file` argument loads a document from the named file,
a literal argument starting with a brace is parsed as a document, and otherwise
the string is parsed as `key=value` tokens; each branch merges the
caller-supplied mapping over the facts, and check mode finally sets the
reserved check-mode key. The two loaders are the out-of-scope DataLoader, made
explicit as oracles mapping the source text to the document it yields. -/
def normalize (fixedFacts : List (String × JValue)) (rawArgs : String)
    (loadFile loadStr : String → List (String × JValue)) (check : Bool) :
    List (String × JValue) :=
  let s1 :=
    if startswith rawArgs "@" then
      (combine_vars fixedFacts (loadFile (py_drop rawArgs 1)), "")
    else if startswith rawArgs "\x7b" then
      (combine_vars fixedFacts (loadStr rawArgs), "")
    else (fixedFacts, rawArgs)
  let s2 := if s1.2 = "" then s1.1 else combine_vars s1.1 (parse_kv s1.2)
  if check then dictSet s2 "_ansible_check_mode" (.bool true) else s2

/-- The caller-supplied document for each input form: the loaded file document
for an `@file` argument, the parsed literal document for a brace argument, and
the parsed `key=value` mapping otherwise. -/
def caller_doc (rawArgs : String)
    (loadFile loadStr : String → List (String × JValue)) :
    List (String × JValue) :=
  if startswith rawArgs "@" then loadFile (py_drop rawArgs 1)
  else if startswith rawArgs "\x7b" then loadStr rawArgs
  else parse_kv rawArgs

/-- JSON whitespace accepted between tokens by the decoder. -/
def isJsonWs (c : Char) : Bool :=
  c = ' ' ∨ c = '\t' ∨ c = '\n' ∨ c = '\x0d'

/-- Skip JSON whitespace. -/
def skipWs : List Char → List Char
  | [] => []
  | c :: cs => if isJsonWs c then skipWs cs else c :: cs

/-- Decode one escape character of a JSON string (the `\uXXXX` form is outside
this model). -/
def escChar (c : Char) : Option Char :=
  if c = Char.ofNat 34 then some (Char.ofNat 34)
  else if c = '\\' then some '\\'
  else if c = '/' then some '/'
  else if c = 'n' then some '\n'
  else if c = 't' then some '\t'
  else if c = 'r' then some '\x0d'
  else if c = 'b' then some '\x08'
  else if c = 'f' then some '\x0c'
  else none

/-- Parse the body of a JSON string after its opening quote, up to and
including the closing quote. -/
def parseStringBody : List Char → Option (String × List Char)
  | [] => none
  | c :: cs =>
    if c = Char.ofNat 34 then some ("", cs)
    else if c = '\\' then
      match cs with
      | [] => none
      | e :: cs2 =>
        match escChar e with
        | some ec => (parseStringBody cs2).map (fun p => (String.mk (ec :: p.1.toList), p.2))
        | none => none
    else (parseStringBody cs).map (fun p => (String.mk (c :: p.1.toList), p.2))

/-- Accumulate decimal digits into a natural number. -/
def digitsToNat : List Char → Nat → Nat
  | [], acc => acc
  | c :: cs, acc => digitsToNat cs (acc * 10 + (c.toNat - 48))

/-- Parse a JSON integer (floats and exponents are outside this model and are
rejected). -/
def parseNumber (cs : List Char) : Option (JValue × List Char) :=
  let sign := match cs with
    | '-' :: rest => (true, rest)
    | _ => (false, cs)
  let ds := sign.2.takeWhile (fun c => c.isDigit)
  let rest := sign.2.dropWhile (fun c => c.isDigit)
  if ds.isEmpty then none
  else
    match rest with
    | '.' :: _ => none
    | 'e' :: _ => none
    | 'E' :: _ => none
    | _ =>
      let n : Int := Int.ofNat (digitsToNat ds 0)
      some (.num (if sign.1 then -n else n), rest)

mutual

/-- Fuel-indexed recursive-descent parser for one JSON value, modelling
`json.loads` on the integer fragment of JSON. -/
def parseValue : Nat → List Char → Option (JValue × List Char)
  | 0, _ => none
  | fuel + 1, cs =>
    match skipWs cs with
    | [] => none
    | c :: rest =>
      if c = Char.ofNat 123 then parseObjStart fuel rest
      else if c = '[' then parseArrStart fuel rest
      else if c = Char.ofNat 34 then
        (parseStringBody rest).map (fun p => (.str p.1, p.2))
      else
        match c :: rest with
        | 't' :: 'r' :: 'u' :: 'e' :: r => some (.bool true, r)
        | 'f' :: 'a' :: 'l' :: 's' :: 'e' :: r => some (.bool false, r)
        | 'n' :: 'u' :: 'l' :: 'l' :: r => some (.null, r)
        | cs2 => parseNumber cs2

/-- Parse an object body right after its opening brace. -/
def parseObjStart : Nat → List Char → Option (JValue × List Char)
  | 0, _ => none
  | fuel + 1, cs =>
    match skipWs cs with
    | [] => none
    | c :: rest =>
      if c = Char.ofNat 125 then some (.obj [], rest)
      else parseObjMembers fuel (c :: rest) []

/-- Parse the members of a non-empty object; duplicate keys are resolved by
dict assignment, later members overwriting earlier ones as in `json.loads`. -/
def parseObjMembers : Nat → List Char → List (String × JValue) →
    Option (JValue × List Char)
  | 0, _, _ => none
  | fuel + 1, cs, acc =>
    match skipWs cs with
    | [] => none
    | c :: rest =>
      if c = Char.ofNat 34 then
        match parseStringBody rest with
        | some kp =>
          match skipWs kp.2 with
          | ':' :: rest3 =>
            match parseValue fuel rest3 with
            | some vp =>
              let acc2 := dictSet acc kp.1 vp.1
              match skipWs vp.2 with
              | ',' :: rest5 => parseObjMembers fuel rest5 acc2
              | c2 :: rest5 =>
                if c2 = Char.ofNat 125 then some (.obj acc2, rest5) else none
              | [] => none
            | none => none
          | _ => none
        | none => none
      else none

/-- Parse an array body right after its opening bracket. -/
def parseArrStart : Nat → List Char → Option (JValue × List Char)
  | 0, _ => none
  | fuel + 1, cs =>
    match skipWs cs with
    | ']' :: rest => some (.arr [], rest)
    | cs2 => parseArrElems fuel cs2 []

/-- Parse the elements of a non-empty array. -/
def parseArrElems : Nat → List Char → List JValue → Option (JValue × List Char)
  | 0, _, _ => none
  | fuel + 1, cs, acc =>
    match parseValue fuel cs with
    | some vp =>
      match skipWs vp.2 with
      | ',' :: rest2 => parseArrElems fuel rest2 (acc ++ [vp.1])
      | ']' :: rest2 => some (.arr (acc ++ [vp.1]), rest2)
      | _ => none
    | none => none

end

/-- Model of `json.loads`: parse one JSON document and require only trailing
whitespace after it. -/
def json_loads (s : String) : Option JValue :=
  let cs := s.toList
  match parseValue (2 * cs.length + 8) cs with
  | some vp => if (skipWs vp.2).isEmpty then some vp.1 else none
  | none => none

/-- Escape one character for a JSON string literal. -/
def jstrEscapeChar (c : Char) : String :=
  if c = Char.ofNat 34 then "\\\""
  else if c = '\\' then "\\\\"
  else if c = '\n' then "\\n"
  else if c = '\t' then "\\t"
  else if c = '\x0d' then "\\r"
  else String.singleton c

/-- Escape a string for a JSON string literal. -/
def jstrEscape (s : String) : String :=
  String.join (s.toList.map jstrEscapeChar)

/-- Indentation prefix for `json.dumps(..., indent=4)` at a nesting level. -/
def jsonIndent (lvl : Nat) : String :=
  String.mk (List.replicate (4 * lvl) ' ')

/-- Lexicographic code-point order on character lists, used to model Python
string comparison for `sort_keys=True`. -/
def charListLe : List Char → List Char → Bool
  | [], _ => true
  | _ :: _, [] => false
  | a :: as, b :: bs =>
    if a.toNat < b.toNat then true
    else if a.toNat = b.toNat then charListLe as bs
    else false

/-- String order used to model `sort_keys=True` (code-point comparison, as in
Python). -/
def strLeB (a b : String) : Bool := charListLe a.toList b.toList

/-- Insert a rendered key-value pair into a key-sorted list, keeping the sort
stable. -/
def insertPair (p : String × String) : List (String × String) → List (String × String)
  | [] => [p]
  | q :: l => if strLeB p.1 q.1 then p :: q :: l else q :: insertPair p l

/-- Stable insertion sort of rendered key-value pairs by key. -/
def sortPairs : List (String × String) → List (String × String)
  | [] => []
  | p :: l => insertPair p (sortPairs l)

/-- Fuel-indexed model of `json.dumps(v, indent=4, sort_keys=True)` at a
nesting level: object members are rendered, sorted by key, and joined with the
indented separators Python uses for `indent=4`. The fuel only bounds nesting
depth and is never exhausted when at least `sizeOf v` is supplied. -/
def json_dumps4 : Nat → JValue → Nat → String
  | 0, _, _ => ""
  | fuel + 1, v, lvl =>
    match v with
    | .null => "null"
    | .bool true => "true"
    | .bool false => "false"
    | .num n => toString n
    | .str s => "\"" ++ jstrEscape s ++ "\""
    | .arr xs =>
      let items := xs.map (fun x => json_dumps4 fuel x (lvl + 1))
      if items.isEmpty then "[]"
      else
        "[\n" ++
        String.intercalate ",\n" (items.map (fun it => jsonIndent (lvl + 1) ++ it)) ++
        "\n" ++ jsonIndent lvl ++ "]"
    | .obj kvs =>
      let items := kvs.map (fun kv => (kv.1, json_dumps4 fuel kv.2 (lvl + 1)))
      if items.isEmpty then "\x7b\x7d"
      else
        "\x7b\n" ++
        String.intercalate ",\n"
          ((sortPairs items).map
            (fun kv => jsonIndent (lvl + 1) ++ "\"" ++ jstrEscape kv.1 ++ "\": " ++ kv.2)) ++
        "\n" ++ jsonIndent lvl ++ "\x7d"

/-- Model of the call `json.dumps(results, indent=4, sort_keys=True)` on line
164 of the source. The fuel mirrors CPython's default recursion limit of 1000,
beyond which the source call itself fails; values nested that deeply are
outside this model. -/
def json_dumps (v : JValue) : String := json_dumps4 1000 v 0

/-- The banner line `"*" * 35` printed by `runtest`. -/
def stars35 : String := String.mk (List.replicate 35 '*')

/-- Observable outcome of the output-reporting stage of `runtest` (lines
145-164): the lines printed to standard output, whether a decode-failure
traceback was printed to standard error, the explicit exit code requested (the
invalid-output branch calls `sys.exit(1)`), and the parsed result if any. -/
structure RuntestReport where
  stdout_lines : List String
  printed_traceback : Bool
  exit_code : Option Nat
  parsed : Option JValue

/-- The output-reporting stage of `runtest`, given the captured and decoded
standard output and standard error of the module child process: the raw-output
banner and streams are printed first; then the output is deserialized, a
success printing the parsed-output banner and the pretty-printed value, and a
failure printing the invalid-output banner, the raw stdout and a traceback
before exiting with status 1. -/
def runtest_report (out err : String) : RuntestReport :=
  match json_loads out with
  | some results =>
    { stdout_lines := [stars35, "RAW OUTPUT", out, err, stars35, "PARSED OUTPUT",
                       json_dumps results],
      printed_traceback := false,
      exit_code := none,
      parsed := some results }
  | none =>
    { stdout_lines := [stars35, "RAW OUTPUT", out, err, stars35,
                       "INVALID OUTPUT FORMAT", out],
      printed_traceback := true,
      exit_code := some 1,
      parsed := none }

/-- Exit status of the harness process for a run that reaches the reporting
stage: the explicitly requested exit code, or 0 when `runtest` returns and
`main` completes normally. -/
def harness_exit_code (r : RuntestReport) : Nat :=
  r.exit_code.getD 0

/-- The module output document named by the claim about a successful run. -/
def SUCCESS_DOC : String := "\x7b\"changed\": false, \"msg\": \"ok\"\x7d"

/-- The bundled-wrapper marker token tested on line 115 of the source. -/
def ANSIBALLZ_WRAPPER_MARKER : String := "_ANSIBALLZ_WRAPPER = True"

/-- Observable outcome of `boilerplate_module` (the packaging step): the
returned destination path, module name and final style, together with the
argument bundle passed to the transformation collaborator, the payload written
to the destination, and whether the line-offset warning was printed. -/
structure BoilerplateResult where
  modfile2_path : String
  modname : String
  module_style : String
  complex_args : List (String × JValue)
  module_data : String
  offset_warning : Bool

/-- Model of `boilerplate_module` (lines 71-125): normalize the arguments,
derive the module name from the source file's base name with its extension
stripped, invoke the transformation collaborator (an oracle from module name,
module file and argument bundle to payload text and reported style), reclassify
a `new`-style result whose payload contains the bundled-wrapper marker as
`ansiballz`, expand the destination path, and record whether the style is
outside the set for which line numbers stay meaningful (neither `ansiballz`
nor `old`), which triggers the warning on line 121. -/
def boilerplate_module (modfile args : String)
    (loadFile loadStr : String → List (String × JValue))
    (check : Bool) (destfile home : String)
    (modify_module : String → String → List (String × JValue) → String × String) :
    BoilerplateResult :=
  let complex_args := normalize reserved_defaults args loadFile loadStr check
  let modname := os_path_splitext_root (os_path_basename modfile)
  let md := modify_module modname modfile complex_args
  let module_style :=
    if md.2 = "new" ∧ py_in ANSIBALLZ_WRAPPER_MARKER md.1 = true then "ansiballz"
    else md.2
  { modfile2_path := os_path_expanduser home destfile,
    modname := modname,
    module_style := module_style,
    complex_args := complex_args,
    module_data := md.1,
    offset_warning := !(module_style == "ansiballz" || module_style == "old") }

/-- The marker phrase expected in the first explode output line (line 187). -/
def EXPANSION_MARKER : String := "Module expanded into"

/-- One directory visited by `os.walk`: its path and the file names directly
inside it. The walk order is the depth-first order `os.walk` produces. -/
structure WalkEntry where
  dirname : String
  filenames : List String
deriving DecidableEq

/-- The search loop of lines 197-202: for each walked directory, the first
file name equal to `modname + ".py"` rebinds `modfile` (the inner `break`
leaves only the walk over that directory's file list, so later directories
with a match rebind it again). -/
def findModfile (walk : List WalkEntry) (modname modfile : String) : String :=
  walk.foldl
    (fun mf e =>
      match e.filenames.find? (fun f => f == modname ++ ".py") with
      | some f => os_path_join e.dirname f
      | none => mf)
    modfile

/-- The last walked directory whose file list contains `modname + ".py"`, used
to characterize `findModfile`. -/
def lastMatch (modname : String) : List WalkEntry → Option WalkEntry
  | [] => none
  | e :: walk =>
    match lastMatch modname walk with
    | some e2 => some e2
    | none =>
      if e.filenames.any (fun f => f == modname ++ ".py") then some e else none

/-- Python `sys.exit` semantics for a non-integer argument such as the decoded
error stream on line 191: the argument is printed to standard error and the
process exits with status 1. -/
def sys_exit_status_of_message (_msg : String) : Nat := 1

/-- Result of `ansiballz_setup` (lines 167-207): either a fatal protocol
violation (the invalid-output banner and the raw explode output are printed and
`sys.exit` is called on the error stream), or the located module file plus the
argument file path under the debug directory. -/
inductive AnsiballzSetupResult where
  | protocol_error (raw_out : String) (exit_message : String) (exit_status : Nat)
  | ok (modfile : String) (argsfile : String)
deriving DecidableEq

/-- Model of `ansiballz_setup` after the explode child process ran, taking its
decoded output streams as inputs and the filesystem as an oracle mapping the
debug directory to the concatenated `os.walk` entries of the two searched
subtrees (`ansible/modules` and `ansible_collections/*/*/plugins/modules`) in
walk order. The output contract is exactly two lines with the first containing
the expansion marker; any deviation reports the raw output and exits via
`sys.exit` on the error stream. Otherwise the second line, stripped, is the
debug directory, the module search of lines 197-202 runs, and the argument
file is `args` directly under the debug directory. -/
def ansiballz_setup (out err : String) (walk : String → List WalkEntry)
    (modname modfile : String) : AnsiballzSetupResult :=
  if (splitlines out).length ≠ 2 ∨
      py_in EXPANSION_MARKER ((splitlines out).headD "") = false then
    .protocol_error out err (sys_exit_status_of_message err)
  else
    .ok (findModfile (walk (py_strip ((splitlines out).getD 1 ""))) modname modfile)
      (os_path_join (py_strip ((splitlines out).getD 1 "")) "args")

theorem dictGet_dictSet (d : List (String × JValue)) (k : String) (v : JValue)
    (k2 : String) :
    dictGet (dictSet d k v) k2 = if k = k2 then some v else dictGet d k2 := by
  induction d with
  | nil => simp [dictSet, dictGet]
  | cons p d ih =>
    by_cases h1 : p.1 = k
    · rw [show dictSet (p :: d) k v = (k, v) :: d from by simp [dictSet, h1]]
      by_cases h2 : k = k2
      · simp [dictGet, h2]
      · have h3 : ¬ p.1 = k2 := fun hh => h2 (h1.symm.trans hh)
        simp [dictGet, h2, h3]
    · rw [show dictSet (p :: d) k v = p :: dictSet d k v from by simp [dictSet, h1]]
      by_cases h2 : p.1 = k2
      · have h3 : ¬ k = k2 := fun hh => h1 (h2.trans hh.symm)
        simp [dictGet, h2, h3]
      · simp [dictGet, h2, ih]

theorem dictGet_append (a b : List (String × JValue)) (k : String) :
    dictGet (a ++ b) k = optOr (dictGet a k) (dictGet b k) := by
  induction a with
  | nil => simp [dictGet, optOr]
  | cons p a ih =>
    by_cases h : p.1 = k <;> simp [dictGet, h, ih, optOr]

theorem dictGet_eq_none_of_not_mem (d : List (String × JValue)) (k : String)
    (h : k ∉ d.map Prod.fst) : dictGet d k = none := by
  induction d with
  | nil => simp [dictGet]
  | cons p d ih =>
    simp only [List.map_cons, List.mem_cons] at h
    push_neg at h
    have h1 : ¬ p.1 = k := fun hh => h.1 hh.symm
    simp [dictGet, h1, ih h.2]

theorem dictGet_combine_vars (a b : List (String × JValue)) (k : String) :
    dictGet (combine_vars a b) k = optOr (dictGetLast b k) (dictGet a k) := by
  induction b generalizing a with
  | nil => simp [combine_vars, dictGetLast, dictGet, optOr]
  | cons p b ih =>
    have hstep : combine_vars a (p :: b) = combine_vars (dictSet a p.1 p.2) b := rfl
    rw [hstep, ih]
    have hrev : dictGetLast (p :: b) k = optOr (dictGetLast b k) (dictGet [p] k) := by
      simp only [dictGetLast, List.reverse_cons]
      exact dictGet_append b.reverse [p] k
    rw [hrev, dictGet_dictSet]
    cases hb : dictGetLast b k with
    | some x => simp [optOr]
    | none =>
      by_cases h : p.1 = k <;> simp [optOr, dictGet, h]

theorem dictGetLast_eq_dictGet (d : List (String × JValue)) (k : String)
    (h : (d.map Prod.fst).Nodup) : dictGetLast d k = dictGet d k := by
  induction d with
  | nil => rfl
  | cons p d ih =>
    simp only [List.map_cons, List.nodup_cons] at h
    have hrev : dictGetLast (p :: d) k = optOr (dictGetLast d k) (dictGet [p] k) := by
      simp only [dictGetLast, List.reverse_cons]
      exact dictGet_append d.reverse [p] k
    rw [hrev, ih h.2]
    by_cases hk : p.1 = k
    · have hnone : dictGet d k = none := by
        apply dictGet_eq_none_of_not_mem
        rw [← hk]
        exact h.1
      simp [hnone, optOr, dictGet, hk]
    · cases hd : dictGet d k <;> simp [optOr, dictGet, hk, hd]

theorem mem_keys_dictSet (d : List (String × JValue)) (k : String) (v : JValue)
    (x : String) :
    x ∈ (dictSet d k v).map Prod.fst ↔ x = k ∨ x ∈ d.map Prod.fst := by
  induction d with
  | nil => simp [dictSet]
  | cons p d ih =>
    by_cases h1 : p.1 = k
    · rw [show dictSet (p :: d) k v = (k, v) :: d from by simp [dictSet, h1]]
      simp [h1]
    · rw [show dictSet (p :: d) k v = p :: dictSet d k v from by simp [dictSet, h1]]
      simp only [List.map_cons, List.mem_cons, ih]
      tauto

theorem nodup_keys_dictSet (d : List (String × JValue)) (k : String) (v : JValue)
    (h : (d.map Prod.fst).Nodup) : ((dictSet d k v).map Prod.fst).Nodup := by
  induction d with
  | nil => simp [dictSet]
  | cons p d ih =>
    simp only [List.map_cons, List.nodup_cons] at h
    by_cases h1 : p.1 = k
    · rw [show dictSet (p :: d) k v = (k, v) :: d from by simp [dictSet, h1]]
      simp only [List.map_cons, List.nodup_cons]
      exact ⟨h1 ▸ h.1, h.2⟩
    · rw [show dictSet (p :: d) k v = p :: dictSet d k v from by simp [dictSet, h1]]
      simp only [List.map_cons, List.nodup_cons]
      refine ⟨?_, ih h.2⟩
      rw [mem_keys_dictSet]
      rintro (hh | hh)
      · exact h1 hh
      · exact h.1 hh

theorem parse_kv_step_nodup (toks : List String) (d : List (String × JValue))
    (h : (d.map Prod.fst).Nodup) :
    ((toks.foldl
      (fun d tok =>
        match splitFirstEq tok.toList with
        | some p => dictSet d p.1.asString (.str (unquote p.2.asString))
        | none => d)
      d).map Prod.fst).Nodup := by
  induction toks generalizing d with
  | nil => simpa using h
  | cons tok toks ih =>
    simp only [List.foldl_cons]
    apply ih
    cases splitFirstEq tok.toList with
    | none => simpa using h
    | some p => simpa using nodup_keys_dictSet d _ _ h

theorem parse_kv_nodup (s : String) : ((parse_kv s).map Prod.fst).Nodup := by
  unfold parse_kv
  exact parse_kv_step_nodup (split_args s) [] (by simp)

theorem findModfile_eq (walk : List WalkEntry) (modname modfile : String) :
    findModfile walk modname modfile =
      match lastMatch modname walk with
      | some e => os_path_join e.dirname (modname ++ ".py")
      | none => modfile := by
  induction walk generalizing modfile with
  | nil => simp [findModfile, lastMatch]
  | cons e walk ih =>
    have hstep : findModfile (e :: walk) modname modfile =
        findModfile walk modname
          (match e.filenames.find? (fun f => f == modname ++ ".py") with
           | some f => os_path_join e.dirname f
           | none => modfile) := rfl
    rw [hstep, ih]
    cases hl : lastMatch modname walk with
    | some e2 => simp [lastMatch, hl]
    | none =>
      simp only [lastMatch, hl]
      cases hf : e.filenames.find? (fun f => f == modname ++ ".py") with
      | some f =>
        have hany : e.filenames.any (fun f => f == modname ++ ".py") = true := by
          have hmem := List.mem_of_find?_eq_some hf
          have hp := List.find?_some hf
          rw [List.any_eq_true]
          exact ⟨f, hmem, hp⟩
        have heq : f = modname ++ ".py" := by
          have := List.find?_some hf
          simpa using this
        simp [hany, heq]
      | none =>
        have hany : e.filenames.any (fun f => f == modname ++ ".py") = false := by
          rw [List.any_eq_false]
          intro x hx
          have := List.find?_eq_none.mp hf x hx
          simpa using this
        simp [hany]

theorem lastMatch_eq_none (walk : List WalkEntry) (modname : String)
    (h : ∀ e ∈ walk, (modname ++ ".py") ∉ e.filenames) :
    lastMatch modname walk = none := by
  induction walk with
  | nil => rfl
  | cons e walk ih =>
    have h1 : (modname ++ ".py") ∉ e.filenames := h e (by simp)
    have h2 := ih (fun e2 he2 => h e2 (by simp [he2]))
    have hany : e.filenames.any (fun f => f == modname ++ ".py") = false := by
      rw [List.any_eq_false]
      intro x hx
      simp only [beq_iff_eq]
      exact fun hxx => h1 (hxx ▸ hx)
    simp [lastMatch, h2, hany]

/-- C1, counterexample: a payload that textually contains the bundled-wrapper
marker but whose reported style is `old` (the spec's `legacy`) keeps the
reported style, so the claim that the marker forces style `bundled` regardless
of the reported tag is false: the override on line 115 additionally requires
the reported style to be `new`. -/
theorem C1_counterexample :
    py_in ANSIBALLZ_WRAPPER_MARKER ANSIBALLZ_WRAPPER_MARKER = true ∧
    (boilerplate_module "/modules/foo.py" "" (fun _ => []) (fun _ => []) false
        "/tmp/out" "/root"
        (fun _ _ _ => (ANSIBALLZ_WRAPPER_MARKER, "old"))).module_style = "old" ∧
    ("old" : String) ≠ "ansiballz" :=
  ⟨rfl, rfl, by decide⟩

/-- C1, amended: the marker override applies only when the collaborator
reported style `new` (the spec's `direct`); with a `new` report and the marker
present the final style is `ansiballz` (the spec's `bundled`), and when the
marker is absent, or the report is any other style, the reported style is
returned verbatim. -/
theorem C1_amended (modfile args destfile home : String)
    (loadFile loadStr : String → List (String × JValue)) (check : Bool)
    (data reported : String) :
    (reported = "new" → py_in ANSIBALLZ_WRAPPER_MARKER data = true →
      (boilerplate_module modfile args loadFile loadStr check destfile home
        (fun _ _ _ => (data, reported))).module_style = "ansiballz") ∧
    (py_in ANSIBALLZ_WRAPPER_MARKER data = false →
      (boilerplate_module modfile args loadFile loadStr check destfile home
        (fun _ _ _ => (data, reported))).module_style = reported) ∧
    (reported ≠ "new" →
      (boilerplate_module modfile args loadFile loadStr check destfile home
        (fun _ _ _ => (data, reported))).module_style = reported) := by
  refine ⟨?_, ?_, ?_⟩
  · intro h1 h2
    simp [boilerplate_module, h1, h2]
  · intro h1
    simp [boilerplate_module, h1]
  · intro h1
    simp [boilerplate_module, h1]

/-- Witness for `C1_amended` at concrete inputs: a `new` report with the
marker becomes `ansiballz`, and a markerless payload keeps its report. -/
theorem C1_amended_witness :
    (boilerplate_module "/modules/foo.py" "" (fun _ => []) (fun _ => []) false
        "/tmp/out" "/root"
        (fun _ _ _ => (ANSIBALLZ_WRAPPER_MARKER, "new"))).module_style = "ansiballz" ∧
    (boilerplate_module "/modules/foo.py" "" (fun _ => []) (fun _ => []) false
        "/tmp/out" "/root"
        (fun _ _ _ => ("plain payload", "new"))).module_style = "new" :=
  ⟨(C1_amended "/modules/foo.py" "" "/tmp/out" "/root" (fun _ => []) (fun _ => [])
      false ANSIBALLZ_WRAPPER_MARKER "new").1 rfl rfl,
   (C1_amended "/modules/foo.py" "" "/tmp/out" "/root" (fun _ => []) (fun _ => [])
      false "plain payload" "new").2.1 rfl⟩

/-- C6: the line-offset warning of line 121 is printed exactly when the final,
post-override style is neither `ansiballz` (bundled) nor `old` (legacy); in
particular a reported `old` style never triggers it, and a reported `new`
style overridden to `ansiballz` by marker detection does not trigger it. -/
theorem C6_offset_warning (modfile args destfile home : String)
    (loadFile loadStr : String → List (String × JValue)) (check : Bool)
    (data reported : String) :
    ((boilerplate_module modfile args loadFile loadStr check destfile home
        (fun _ _ _ => (data, reported))).offset_warning = true ↔
      ((boilerplate_module modfile args loadFile loadStr check destfile home
          (fun _ _ _ => (data, reported))).module_style ≠ "ansiballz" ∧
       (boilerplate_module modfile args loadFile loadStr check destfile home
          (fun _ _ _ => (data, reported))).module_style ≠ "old")) ∧
    (reported = "old" →
      (boilerplate_module modfile args loadFile loadStr check destfile home
        (fun _ _ _ => (data, reported))).offset_warning = false) ∧
    (reported = "new" → py_in ANSIBALLZ_WRAPPER_MARKER data = true →
      (boilerplate_module modfile args loadFile loadStr check destfile home
        (fun _ _ _ => (data, reported))).offset_warning = false) := by
  refine ⟨?_, ?_, ?_⟩
  · simp [boilerplate_module]
  · intro h1
    simp [boilerplate_module, h1]
  · intro h1 h2
    simp [boilerplate_module, h1, h2]

/-- Witness for `C6_offset_warning`: a reported `old` style and a reported
`new` style with the marker both leave the warning unprinted, and the general
equivalence holds at a style that does trigger it. -/
theorem C6_offset_warning_witness :
    (boilerplate_module "/modules/foo.py" "" (fun _ => []) (fun _ => []) false
        "/tmp/out" "/root"
        (fun _ _ _ => ("payload", "old"))).offset_warning = false ∧
    (boilerplate_module "/modules/foo.py" "" (fun _ => []) (fun _ => []) false
        "/tmp/out" "/root"
        (fun _ _ _ => (ANSIBALLZ_WRAPPER_MARKER, "new"))).offset_warning = false ∧
    ((boilerplate_module "/modules/foo.py" "" (fun _ => []) (fun _ => []) false
        "/tmp/out" "/root"
        (fun _ _ _ => ("payload", "new"))).offset_warning = true ↔
      ((boilerplate_module "/modules/foo.py" "" (fun _ => []) (fun _ => []) false
          "/tmp/out" "/root"
          (fun _ _ _ => ("payload", "new"))).module_style ≠ "ansiballz" ∧
       (boilerplate_module "/modules/foo.py" "" (fun _ => []) (fun _ => []) false
          "/tmp/out" "/root"
          (fun _ _ _ => ("payload", "new"))).module_style ≠ "old")) :=
  ⟨(C6_offset_warning "/modules/foo.py" "" "/tmp/out" "/root" (fun _ => [])
      (fun _ => []) false "payload" "old").2.1 rfl,
   (C6_offset_warning "/modules/foo.py" "" "/tmp/out" "/root" (fun _ => [])
      (fun _ => []) false ANSIBALLZ_WRAPPER_MARKER "new").2.2 rfl rfl,
   (C6_offset_warning "/modules/foo.py" "" "/tmp/out" "/root" (fun _ => [])
      (fun _ => []) false "payload" "new").1⟩

/-- C2, counterexample: with two walked directories both containing
`m.py`, the search of lines 197-202 returns the file from the second (last)
directory, not the first one encountered, because the `break` leaves only the
innermost loop over one directory's file list; the claim that the first match
of the depth-first walk wins is therefore false. -/
theorem C2_counterexample :
    ansiballz_setup "payload Module expanded into /tmp/d\n/tmp/d" "boom"
      (fun _ => [⟨"/tmp/d/ansible/modules", ["m.py"]⟩,
                 ⟨"/tmp/d/ansible/modules/sub", ["m.py"]⟩]) "m" "/stage/m_payload" =
      .ok "/tmp/d/ansible/modules/sub/m.py" "/tmp/d/args" ∧
    ("/tmp/d/ansible/modules/sub/m.py" : String) ≠ "/tmp/d/ansible/modules/m.py" := by
  exact ⟨by decide, by decide⟩

/-- C2, amended: the module search returns the match from the last walked
directory whose file list contains `modname + ".py"` (within one directory the
first matching file name is taken, but every later matching directory rebinds
the result); when no directory matches, the staged file path is returned
unchanged. -/
theorem C2_amended (walk : List WalkEntry) (modname modfile : String) :
    findModfile walk modname modfile =
      match lastMatch modname walk with
      | some e => os_path_join e.dirname (modname ++ ".py")
      | none => modfile :=
  findModfile_eq walk modname modfile

/-- Witness for `C2_amended` at a concrete two-match walk. -/
theorem C2_amended_witness :
    findModfile [⟨"d1", ["m.py"]⟩, ⟨"d2", ["m.py"]⟩] "m" "/orig" =
      match lastMatch "m" [⟨"d1", ["m.py"]⟩, ⟨"d2", ["m.py"]⟩] with
      | some e => os_path_join e.dirname ("m" ++ ".py")
      | none => "/orig" :=
  C2_amended [⟨"d1", ["m.py"]⟩, ⟨"d2", ["m.py"]⟩] "m" "/orig"

/-- C4: explode output that does not have exactly two lines, or whose first
line lacks the expansion marker, makes `ansiballz_setup` report the raw output
and exit through `sys.exit` on the decoded error stream, which terminates the
process with the non-zero status 1 and produces no module/args file pair. -/
theorem C4_protocol_violation (out err modname modfile : String)
    (walk : String → List WalkEntry)
    (h : (splitlines out).length ≠ 2 ∨
         py_in EXPANSION_MARKER ((splitlines out).headD "") = false) :
    ansiballz_setup out err walk modname modfile =
      .protocol_error out err (sys_exit_status_of_message err) ∧
    sys_exit_status_of_message err ≠ 0 := by
  constructor
  · unfold ansiballz_setup
    rw [if_pos h]
  · exact Nat.one_ne_zero

/-- Witness for `C4_protocol_violation` at the four concrete shapes named by
the claim: empty output (0 lines), one line, three lines, and two lines whose
first line lacks the marker. -/
theorem C4_protocol_violation_witness :
    (ansiballz_setup "" "e0" (fun _ => []) "m" "/stage/m" =
        .protocol_error "" "e0" (sys_exit_status_of_message "e0") ∧
      sys_exit_status_of_message "e0" ≠ 0) ∧
    (ansiballz_setup "only one line" "e1" (fun _ => []) "m" "/stage/m" =
        .protocol_error "only one line" "e1" (sys_exit_status_of_message "e1") ∧
      sys_exit_status_of_message "e1" ≠ 0) ∧
    (ansiballz_setup "Module expanded into /tmp/d\n/tmp/d\nextra" "e3"
        (fun _ => []) "m" "/stage/m" =
        .protocol_error "Module expanded into /tmp/d\n/tmp/d\nextra" "e3"
          (sys_exit_status_of_message "e3") ∧
      sys_exit_status_of_message "e3" ≠ 0) ∧
    (ansiballz_setup "something else entirely\n/tmp/d" "e2" (fun _ => []) "m"
        "/stage/m" =
        .protocol_error "something else entirely\n/tmp/d" "e2"
          (sys_exit_status_of_message "e2") ∧
      sys_exit_status_of_message "e2" ≠ 0) :=
  ⟨C4_protocol_violation "" "e0" "m" "/stage/m" (fun _ => []) (by decide),
   C4_protocol_violation "only one line" "e1" "m" "/stage/m" (fun _ => [])
     (by decide),
   C4_protocol_violation "Module expanded into /tmp/d\n/tmp/d\nextra" "e3" "m"
     "/stage/m" (fun _ => []) (by decide),
   C4_protocol_violation "something else entirely\n/tmp/d" "e2" "m" "/stage/m"
     (fun _ => []) (by decide)⟩

/-- C9: with a well-formed explode output whose debug directory contains no
file named `modname + ".py"` in any walked directory, `ansiballz_setup` does
not fail: it returns the originally staged module file path unchanged together
with the `args` file directly under the debug directory. -/
theorem C9_no_match (out err modname modfile : String)
    (walk : String → List WalkEntry)
    (h1 : (splitlines out).length = 2)
    (h2 : py_in EXPANSION_MARKER ((splitlines out).headD "") = true)
    (h3 : ∀ e ∈ walk (py_strip ((splitlines out).getD 1 "")),
            (modname ++ ".py") ∉ e.filenames) :
    ansiballz_setup out err walk modname modfile =
      .ok modfile
        (os_path_join (py_strip ((splitlines out).getD 1 "")) "args") := by
  unfold ansiballz_setup
  rw [if_neg ?hcond]
  case hcond =>
    rintro (hA | hB)
    · exact hA h1
    · rw [h2] at hB
      cases hB
  have hfind := findModfile_eq (walk (py_strip ((splitlines out).getD 1 "")))
    modname modfile
  rw [lastMatch_eq_none _ _ h3] at hfind
  rw [hfind]

/-- Witness for `C9_no_match`: a debug tree whose walked directories hold only
other files leaves the staged path in place and still yields the args path. -/
theorem C9_no_match_witness :
    ansiballz_setup "payload Module expanded into /tmp/d\n/tmp/d" "e"
      (fun _ => [⟨"/tmp/d/ansible/modules", ["other.py"]⟩]) "m" "/stage/m_payload" =
      .ok "/stage/m_payload" "/tmp/d/args" := by
  have h := C9_no_match "payload Module expanded into /tmp/d\n/tmp/d" "e" "m"
    "/stage/m_payload" (fun _ => [⟨"/tmp/d/ansible/modules", ["other.py"]⟩])
    (by decide) (by decide) (by decide)
  exact h.trans (by decide)

/-- C3: when the module writes the JSON document with `changed: false` and
`msg: "ok"` to standard output, the reporting stage parses it, the harness
exit status is 0, the parsed result equals that object, and the printed lines
end with the parsed-output banner followed by the pretty-printed value with
sorted keys and four-space indentation. The child's error stream and exit
status are not consulted by the source, so the result holds for any `err`. -/
theorem C3_success (err : String) :
    json_loads SUCCESS_DOC =
      some (.obj [("changed", .bool false), ("msg", .str "ok")]) ∧
    harness_exit_code (runtest_report SUCCESS_DOC err) = 0 ∧
    (runtest_report SUCCESS_DOC err).parsed =
      some (.obj [("changed", .bool false), ("msg", .str "ok")]) ∧
    (runtest_report SUCCESS_DOC err).stdout_lines =
      [stars35, "RAW OUTPUT", SUCCESS_DOC, err, stars35, "PARSED OUTPUT",
       "\x7b\n    \"changed\": false,\n    \"msg\": \"ok\"\n\x7d"] :=
  ⟨rfl, rfl, rfl, rfl⟩

/-- Witness for `C3_success` at a concrete error stream. -/
theorem C3_success_witness :
    harness_exit_code (runtest_report SUCCESS_DOC "some warnings") = 0 ∧
    (runtest_report SUCCESS_DOC "some warnings").parsed =
      some (.obj [("changed", .bool false), ("msg", .str "ok")]) :=
  ⟨(C3_success "some warnings").2.1, (C3_success "some warnings").2.2.1⟩

/-- C5: when the module's standard output cannot be deserialized, the
reporting stage prints exactly the raw-output banner block followed by the
invalid-output banner and the raw stdout, prints the decode traceback, exits
with the non-zero status 1, and produces no parsed result (in particular the
parsed-output banner and pretty-printed value are never printed). -/
theorem C5_invalid_output (out err : String) (h : json_loads out = none) :
    (runtest_report out err).stdout_lines =
      [stars35, "RAW OUTPUT", out, err, stars35, "INVALID OUTPUT FORMAT", out] ∧
    (runtest_report out err).printed_traceback = true ∧
    (runtest_report out err).exit_code = some 1 ∧
    harness_exit_code (runtest_report out err) ≠ 0 ∧
    (runtest_report out err).parsed = none := by
  unfold runtest_report
  rw [h]
  exact ⟨rfl, rfl, rfl, Nat.one_ne_zero, rfl⟩

/-- Witness for `C5_invalid_output` on a non-JSON output. -/
theorem C5_invalid_output_witness :
    (runtest_report "Traceback: boom" "stderr text").stdout_lines =
      [stars35, "RAW OUTPUT", "Traceback: boom", "stderr text", stars35,
       "INVALID OUTPUT FORMAT", "Traceback: boom"] ∧
    (runtest_report "Traceback: boom" "stderr text").printed_traceback = true ∧
    (runtest_report "Traceback: boom" "stderr text").exit_code = some 1 ∧
    harness_exit_code (runtest_report "Traceback: boom" "stderr text") ≠ 0 ∧
    (runtest_report "Traceback: boom" "stderr text").parsed = none :=
  C5_invalid_output "Traceback: boom" "stderr text" rfl

theorem parse_kv_empty : parse_kv "" = [] := rfl

theorem optOr_isSome (x : Option JValue) (d : JValue) :
    (optOr x (some d)).isSome = true := by
  cases x <;> simp [optOr]

theorem dictGet_normalize (ff : List (String × JValue)) (args : String)
    (lf ls : String → List (String × JValue)) (check : Bool) (k : String) :
    dictGet (normalize ff args lf ls check) k =
      if check = true ∧ k = "_ansible_check_mode" then some (.bool true)
      else optOr (dictGetLast (caller_doc args lf ls) k) (dictGet ff k) := by
  have main : ∀ B : List (String × JValue),
      dictGet (if check = true
          then dictSet B "_ansible_check_mode" (.bool true) else B) k =
        (if check = true ∧ k = "_ansible_check_mode" then some (.bool true)
         else dictGet B k) := by
    intro B
    cases check with
    | false => simp
    | true =>
      rw [if_pos rfl, dictGet_dictSet]
      by_cases hck : k = "_ansible_check_mode"
      · rw [if_pos hck.symm, if_pos ⟨rfl, hck⟩]
      · rw [if_neg (fun hh => hck hh.symm), if_neg (fun hh => hck hh.2)]
  have hsplit : ∀ D : List (String × JValue),
      (if check = true ∧ k = "_ansible_check_mode" then some (JValue.bool true)
        else dictGet (combine_vars ff D) k) =
      (if check = true ∧ k = "_ansible_check_mode" then some (JValue.bool true)
        else optOr (dictGetLast D k) (dictGet ff k)) := by
    intro D
    by_cases hck : check = true ∧ k = "_ansible_check_mode"
    · simp [hck]
    · simp [hck, dictGet_combine_vars]
  by_cases ha : startswith args "@"
  · have hn : normalize ff args lf ls check =
        (if check = true
          then dictSet (combine_vars ff (lf (py_drop args 1)))
            "_ansible_check_mode" (.bool true)
          else combine_vars ff (lf (py_drop args 1))) := by
      simp [normalize, ha]
    have hcd : caller_doc args lf ls = lf (py_drop args 1) := by
      simp [caller_doc, ha]
    rw [hn, main, hcd]
    exact hsplit (lf (py_drop args 1))
  · by_cases hb : startswith args "\x7b"
    · have hn : normalize ff args lf ls check =
          (if check = true
            then dictSet (combine_vars ff (ls args))
              "_ansible_check_mode" (.bool true)
            else combine_vars ff (ls args)) := by
        simp [normalize, ha, hb]
      have hcd : caller_doc args lf ls = ls args := by
        simp [caller_doc, ha, hb]
      rw [hn, main, hcd]
      exact hsplit (ls args)
    · by_cases hc : args = ""
      · subst hc
        have hn : normalize ff "" lf ls check =
            (if check = true
              then dictSet ff "_ansible_check_mode" (.bool true) else ff) := by
          simp [normalize, ha, hb]
        have hcd : caller_doc "" lf ls = [] := by
          simp [caller_doc, ha, hb, parse_kv_empty]
        rw [hn, main, hcd]
        by_cases hck : check = true ∧ k = "_ansible_check_mode"
        · simp [hck]
        · simp [hck, dictGetLast, dictGet, optOr]
      · have hn : normalize ff args lf ls check =
            (if check = true
              then dictSet (combine_vars ff (parse_kv args))
                "_ansible_check_mode" (.bool true)
              else combine_vars ff (parse_kv args)) := by
          simp [normalize, ha, hb, hc]
        have hcd : caller_doc args lf ls = parse_kv args := by
          simp [caller_doc, ha, hb]
        rw [hn, main, hcd]
        exact hsplit (parse_kv args)

/-- C7: a raw argument string that starts with neither an at sign nor a brace
is parsed as whitespace-separated, quote-aware `key=value` tokens and merged
over the fixed facts, the token mapping winning per key; in particular, for
the duplicate-key string of the claim the later occurrence wins and the entry
for key `a` is the string `2`. -/
theorem C7_parse_kv_merge (fixedFacts : List (String × JValue)) (s : String)
    (lf ls : String → List (String × JValue)) (k : String)
    (h1 : startswith s "@" = false) (h2 : startswith s "\x7b" = false) :
    dictGet (normalize fixedFacts s lf ls false) k =
      optOr (dictGet (parse_kv s) k) (dictGet fixedFacts k) ∧
    dictGet (normalize [] "a=1 a=2" lf ls false) "a" = some (.str "2") := by
  constructor
  · rw [dictGet_normalize]
    have hk : ¬ ((false : Bool) = true ∧ k = "_ansible_check_mode") := by simp
    rw [if_neg hk]
    have hcd : caller_doc s lf ls = parse_kv s := by
      simp [caller_doc, h1, h2]
    rw [hcd, dictGetLast_eq_dictGet _ _ (parse_kv_nodup s)]
  · rfl

/-- Witness for `C7_parse_kv_merge` at the claim's own input. -/
theorem C7_parse_kv_merge_witness :
    dictGet (normalize [] "a=1 a=2" (fun _ => []) (fun _ => []) false) "a" =
      some (.str "2") ∧
    dictGet (normalize [] "a=1 a=2" (fun _ => []) (fun _ => []) false) "a" =
      optOr (dictGet (parse_kv "a=1 a=2") "a") (dictGet [] "a") :=
  ⟨(C7_parse_kv_merge [] "a=1 a=2" (fun _ => []) (fun _ => []) "a" rfl rfl).2,
   (C7_parse_kv_merge [] "a=1 a=2" (fun _ => []) (fun _ => []) "a" rfl rfl).1⟩

/-- C8: whatever the raw argument input form (inline `key=value`, literal
document, or loaded file), the normalized bundle always binds each of the four
reserved keys, and when the caller-supplied document itself binds one of those
exact keys (the document being a mapping, its keys are unique), the
caller-supplied value is the one found in the bundle. -/
theorem C8_reserved_keys (args : String)
    (lf ls : String → List (String × JValue)) (check : Bool) (k : String)
    (v : JValue) (hk : k ∈ reserved_keys)
    (hnodup : ((caller_doc args lf ls).map Prod.fst).Nodup) :
    (dictGet (normalize reserved_defaults args lf ls check) k).isSome = true ∧
    (dictGet (caller_doc args lf ls) k = some v →
      dictGet (normalize reserved_defaults args lf ls check) k = some v) := by
  have hcm : ¬ k = "_ansible_check_mode" := by
    simp only [reserved_keys, List.mem_cons, List.not_mem_nil, or_false] at hk
    rcases hk with rfl | rfl | rfl | rfl <;> decide
  have hbase : dictGet (normalize reserved_defaults args lf ls check) k =
      optOr (dictGetLast (caller_doc args lf ls) k) (dictGet reserved_defaults k) := by
    rw [dictGet_normalize, if_neg]
    rintro ⟨-, hh⟩
    exact hcm hh
  have hdef : (dictGet reserved_defaults k).isSome = true := by
    simp only [reserved_keys, List.mem_cons, List.not_mem_nil, or_false] at hk
    rcases hk with rfl | rfl | rfl | rfl <;> rfl
  constructor
  · rw [hbase]
    cases hd : dictGet reserved_defaults k with
    | none => rw [hd] at hdef; cases hdef
    | some d => exact optOr_isSome _ d
  · intro hcaller
    rw [hbase, dictGetLast_eq_dictGet _ _ hnodup, hcaller]
    rfl

/-- Witness for `C8_reserved_keys`: an inline caller assignment to the
reserved version key overrides the injected default, and the key is present. -/
theorem C8_reserved_keys_witness :
    (dictGet (normalize reserved_defaults "_ansible_version=9.9"
        (fun _ => []) (fun _ => []) false) "_ansible_version").isSome = true ∧
    dictGet (normalize reserved_defaults "_ansible_version=9.9"
        (fun _ => []) (fun _ => []) false) "_ansible_version" =
      some (.str "9.9") :=
  ⟨(C8_reserved_keys "_ansible_version=9.9" (fun _ => []) (fun _ => []) false
      "_ansible_version" (.str "9.9") (by decide) (by decide)).1,
   (C8_reserved_keys "_ansible_version=9.9" (fun _ => []) (fun _ => []) false
      "_ansible_version" (.str "9.9") (by decide) (by decide)).2 rfl⟩

/-- C10: with an empty raw argument string and check mode off, normalization
touches no parsing branch (the result does not depend on either loader oracle
and no failure is possible), and the bundle handed to the transformation
collaborator is exactly the four injected reserved keys with their defaults,
in insertion order, and nothing else. -/
theorem C10_empty_args (modfile destfile home : String)
    (lf ls : String → List (String × JValue))
    (modify : String → String → List (String × JValue) → String × String) :
    (boilerplate_module modfile "" lf ls false destfile home modify).complex_args =
      reserved_defaults ∧
    normalize reserved_defaults "" lf ls false = reserved_defaults ∧
    reserved_defaults =
      [("_ansible_selinux_special_fs", DEFAULT_SELINUX_SPECIAL_FS),
       ("_ansible_tmpdir", .str DEFAULT_LOCAL_TMP),
       ("_ansible_keep_remote_files", .bool DEFAULT_KEEP_REMOTE_FILES),
       ("_ansible_version", .str ansible_version)] :=
  ⟨rfl, rfl, rfl⟩

/-- Witness for `C10_empty_args` at concrete oracles. -/
theorem C10_empty_args_witness :
    (boilerplate_module "/modules/foo.py" "" (fun _ => [("x", .num 1)])
        (fun _ => [("y", .num 2)]) false "/tmp/out" "/root"
        (fun _ _ _ => ("payload", "new"))).complex_args = reserved_defaults :=
  (C10_empty_args "/modules/foo.py" "/tmp/out" "/root"
    (fun _ => [("x", .num 1)]) (fun _ => [("y", .num 2)])
    (fun _ _ _ => ("payload", "new"))).1

end TestModule
